import Mathlib

/-!
Verification of the read-only memory view core of the `libv4l-rs` buffer
module (`src/buffers/mmap.rs`): the `MappedBuffer` type, its constructor
`MappedBuffer::new`, and its implementation of the `Buffer` capability
contract (`data`, `len`, `is_empty`, `seq`, `timestamp`, `flags`).

Byte regions are modelled as `List Nat` (one entry per byte); machine
integers (`u32` sequence numbers, flag bit patterns) are modelled as `Nat`,
since the code only stores and returns them and performs no arithmetic.
-/

namespace V4l

/-- Modelled from the spec: `Timestamp` is not under `src/`; §3 describes it
as "a capture-time value expressed as (seconds, microseconds)" and §4.1 says
construction "accepts any sec/usec pair". -/
structure Timestamp where
  sec : Int
  usec : Int
deriving DecidableEq

/-- Modelled from the spec: `BufferFlags` is not under `src/`; §3 describes
it as "a bitset describing driver-reported buffer state … treated as an
unstructured bit container", with "any value accepted" (§4.1). -/
structure BufferFlags where
  bits : Nat
deriving DecidableEq

/-- The `MappedBuffer<'a>` struct of `src/buffers/mmap.rs`: frame metadata
held by value plus the borrowed byte region `view`. The borrow is modelled
by holding the region's byte contents. -/
structure MappedBuffer where
  flags : BufferFlags
  timestamp : Timestamp
  sequence : Nat
  view : List Nat
deriving DecidableEq

/-- `MappedBuffer::new(view, seq, ts, flags)` from `src/buffers/mmap.rs`. -/
def MappedBuffer.new (view : List Nat) (seq : Nat) (ts : Timestamp)
    (flags : BufferFlags) : MappedBuffer :=
  { flags := flags, timestamp := ts, sequence := seq, view := view }

/-- Modelled from the spec: the `Buffer` trait (the capability contract of
§4.3) is declared elsewhere in the crate, not under `src/`; §4.3 requires
exactly the six operations `data`, `len`, `is_empty`, `seq`, `timestamp`,
`flags`. -/
class Buffer (α : Type) where
  data : α → List Nat
  len : α → Nat
  is_empty : α → Bool
  seq : α → Nat
  timestamp : α → Timestamp
  flags : α → BufferFlags

/-- The `impl Buffer for MappedBuffer<'a>` block of `src/buffers/mmap.rs`,
method by method. -/
instance instBufferMappedBuffer : Buffer MappedBuffer where
  data b := b.view
  len b := b.view.length
  is_empty b := b.view.isEmpty
  seq b := b.sequence
  timestamp b := b.timestamp
  flags b := b.flags

/-- The read operations a caller can invoke on a view. -/
inductive Op where
  | data
  | len
  | is_empty
  | seq
  | timestamp
  | flags
deriving DecidableEq

/-- The value returned by one read operation. -/
inductive OpResult where
  | bytes (bs : List Nat)
  | nat (n : Nat)
  | bool (b : Bool)
  | ts (t : Timestamp)
  | fl (f : BufferFlags)
deriving DecidableEq

/-- Invoking one operation on a view: every method of the
`impl Buffer for MappedBuffer` block takes `&self` (a shared borrow), so the
view after the call is the view before the call. -/
def step (op : Op) (b : MappedBuffer) : OpResult × MappedBuffer :=
  match op with
  | .data => (.bytes (Buffer.data b), b)
  | .len => (.nat (Buffer.len b), b)
  | .is_empty => (.bool (Buffer.is_empty b), b)
  | .seq => (.nat (Buffer.seq b), b)
  | .timestamp => (.ts (Buffer.timestamp b), b)
  | .flags => (.fl (Buffer.flags b), b)

/-- Invoking a finite sequence of read operations on a view, collecting the
results and threading the view state. -/
def run (ops : List Op) (b : MappedBuffer) : List OpResult × MappedBuffer :=
  match ops with
  | [] => ([], b)
  | op :: rest =>
    let r := step op b
    let rs := run rest r.2
    (r.1 :: rs.1, rs.2)

/-- The result of `data()` as the spec's words in §4.2 state it: "a sequence
whose contents are byte-for-byte identical to" the region supplied at
construction. -/
def specData (region : List Nat) : List Nat := region

/-- The result of `len()` as the spec's words in §4.2 state it: "byte count
of the region; equals the length of the region supplied at construction". -/
def specLen (region : List Nat) : Nat := region.length

/-- The result of `is_empty()` as the spec's words in §4.2 state it: "true
iff len() == 0". -/
def specIsEmpty (region : List Nat) : Bool := specLen region = 0

/-- The result of `seq()` as the spec's words in §4.2 state it: "returns the
stored sequence number". -/
def specSeq (s : Nat) : Nat := s

/-- The result of `timestamp()` as the spec's words in §4.2 state it:
"returns the stored capture timestamp". -/
def specTimestamp (t : Timestamp) : Timestamp := t

/-- The result of `flags()` as the spec's words in §4.2 state it: "returns
the stored flags". -/
def specFlags (f : BufferFlags) : BufferFlags := f

lemma step_state (op : Op) (b : MappedBuffer) : (step op b).2 = b := by
  cases op <;> rfl

lemma run_state (ops : List Op) (b : MappedBuffer) : (run ops b).2 = b := by
  induction ops generalizing b with
  | nil => rfl
  | cons op rest ih => simp [run, step_state, ih]

/-- C1: for every byte region `b`, sequence number `s`, timestamp `t` and
flags `f`, constructing a view with `MappedBuffer.new b s t f` and then
calling `seq`, `timestamp`, `flags` on it returns exactly `s`, `t` and `f`
(value equality). -/
theorem metadata_roundtrip (b : List Nat) (s : Nat) (t : Timestamp)
    (f : BufferFlags) :
    Buffer.seq (MappedBuffer.new b s t f) = s ∧
    Buffer.timestamp (MappedBuffer.new b s t f) = t ∧
    Buffer.flags (MappedBuffer.new b s t f) = f :=
  ⟨rfl, rfl, rfl⟩

/-- C2: for every byte region `b` and metadata, `data` on the view
constructed over `b` returns bytes identical to `b`, and a second call to
`data` on the same view (the view as left by the first call) returns
contents identical to the first call's. -/
theorem data_roundtrip_idempotent (b : List Nat) (s : Nat) (t : Timestamp)
    (f : BufferFlags) :
    Buffer.data (MappedBuffer.new b s t f) = b ∧
    (step .data ((step .data (MappedBuffer.new b s t f)).2)).1 =
      (step .data (MappedBuffer.new b s t f)).1 :=
  ⟨rfl, rfl⟩

/-- C3: for every byte region `b`, the view constructed over `b` satisfies
`len` equal to the element count of `b`, and `is_empty` is true iff that
count is `0`; in particular a view over the empty region has `len = 0` and
`is_empty = true`. -/
theorem len_is_empty_correct (b : List Nat) (s : Nat) (t : Timestamp)
    (f : BufferFlags) :
    Buffer.len (MappedBuffer.new b s t f) = b.length ∧
    (Buffer.is_empty (MappedBuffer.new b s t f) = true ↔ b.length = 0) := by
  refine ⟨rfl, ?_⟩
  simp [MappedBuffer.new, Buffer.is_empty, instBufferMappedBuffer,
    List.isEmpty_iff_length_eq_zero]

/-- C5: no operation of the view mutates the underlying byte region: after
any finite sequence of calls to `data`, `len`, `is_empty`, `seq`,
`timestamp`, `flags`, the view (and in particular its byte region) is
unchanged, and a `data` call issued after the sequence yields the same
bytes as one issued before it. -/
theorem reads_do_not_mutate (ops : List Op) (b : MappedBuffer) :
    (run ops b).2.view = b.view ∧
    (step .data ((run ops b).2)).1 = (step .data b).1 := by
  constructor
  · rw [run_state]
  · rw [run_state]

/-- C6: no operation of this core can fail: `MappedBuffer.new` accepts
every byte region (any length including 0), every sequence value, every
timestamp pair and every flags bit pattern and always returns a view, and
each of the six accessors is a total pure function yielding a definite
value on every constructed view. -/
theorem construction_and_accessors_total (b : List Nat) (s : Nat)
    (t : Timestamp) (f : BufferFlags) :
    ∃ v : MappedBuffer, MappedBuffer.new b s t f = v ∧
      Buffer.data v = b ∧
      Buffer.len v = b.length ∧
      Buffer.is_empty v = b.isEmpty ∧
      Buffer.seq v = s ∧
      Buffer.timestamp v = t ∧
      Buffer.flags v = f :=
  ⟨MappedBuffer.new b s t f, rfl, rfl, rfl, rfl, rfl, rfl, rfl⟩

/-- C7: `MappedBuffer` conforms to the capability contract: each of the six
operations invoked through the polymorphic `Buffer` interface on a
constructed view returns exactly the result §4.2's direct semantics
prescribes for it. -/
theorem capability_contract_conformance (b : List Nat) (s : Nat)
    (t : Timestamp) (f : BufferFlags) :
    Buffer.data (MappedBuffer.new b s t f) = specData b ∧
    Buffer.len (MappedBuffer.new b s t f) = specLen b ∧
    Buffer.is_empty (MappedBuffer.new b s t f) = specIsEmpty b ∧
    Buffer.seq (MappedBuffer.new b s t f) = specSeq s ∧
    Buffer.timestamp (MappedBuffer.new b s t f) = specTimestamp t ∧
    Buffer.flags (MappedBuffer.new b s t f) = specFlags f := by
  refine ⟨rfl, rfl, ?_, rfl, rfl, rfl⟩
  cases b <;> rfl

/-- C8: two views constructed over two different byte regions with the same
metadata report equal `seq`, `timestamp` and `flags`, while each view's
`data` returns exactly its own region's bytes; the metadata accessors do
not depend on the region and `data` does not depend on the metadata. -/
theorem no_cross_contamination (b1 b2 : List Nat) (s : Nat) (t : Timestamp)
    (f : BufferFlags) :
    Buffer.seq (MappedBuffer.new b1 s t f) =
      Buffer.seq (MappedBuffer.new b2 s t f) ∧
    Buffer.timestamp (MappedBuffer.new b1 s t f) =
      Buffer.timestamp (MappedBuffer.new b2 s t f) ∧
    Buffer.flags (MappedBuffer.new b1 s t f) =
      Buffer.flags (MappedBuffer.new b2 s t f) ∧
    Buffer.data (MappedBuffer.new b1 s t f) = b1 ∧
    Buffer.data (MappedBuffer.new b2 s t f) = b2 ∧
    ∀ (s' : Nat) (t' : Timestamp) (f' : BufferFlags),
      Buffer.data (MappedBuffer.new b1 s t f) =
        Buffer.data (MappedBuffer.new b1 s' t' f') :=
  ⟨rfl, rfl, rfl, rfl, rfl, fun _ _ _ => rfl⟩

/-- C9: the view constructed over the 4-byte region `[0x01,0x02,0x03,0x04]`
with sequence 7, timestamp (100, 250000) and flags 0 satisfies `len = 4`,
`is_empty = false`, `seq = 7`, `timestamp = (100, 250000)`, `flags = 0` and
`data = [0x01,0x02,0x03,0x04]`. -/
theorem concrete_scenario :
    Buffer.len (MappedBuffer.new [1, 2, 3, 4] 7 ⟨100, 250000⟩ ⟨0⟩) = 4 ∧
    Buffer.is_empty (MappedBuffer.new [1, 2, 3, 4] 7 ⟨100, 250000⟩ ⟨0⟩)
      = false ∧
    Buffer.seq (MappedBuffer.new [1, 2, 3, 4] 7 ⟨100, 250000⟩ ⟨0⟩) = 7 ∧
    Buffer.timestamp (MappedBuffer.new [1, 2, 3, 4] 7 ⟨100, 250000⟩ ⟨0⟩)
      = ⟨100, 250000⟩ ∧
    Buffer.flags (MappedBuffer.new [1, 2, 3, 4] 7 ⟨100, 250000⟩ ⟨0⟩)
      = ⟨0⟩ ∧
    Buffer.data (MappedBuffer.new [1, 2, 3, 4] 7 ⟨100, 250000⟩ ⟨0⟩)
      = [1, 2, 3, 4] := by
  refine ⟨rfl, rfl, rfl, rfl, rfl, rfl⟩

/-- C10: on every view, the six accessors are mutually consistent: `len`
equals the length of the sequence returned by `data`, and `is_empty` is
true iff `len = 0`, even though `is_empty` is computed directly on the
stored region rather than via `len`. -/
theorem accessors_mutually_consistent (b : MappedBuffer) :
    Buffer.len b = (Buffer.data b).length ∧
    (Buffer.is_empty b = true ↔ Buffer.len b = 0) := by
  refine ⟨rfl, ?_⟩
  simp [Buffer.is_empty, Buffer.len, instBufferMappedBuffer,
    List.isEmpty_iff_length_eq_zero]

end V4l
